import Mathlib

/-!
Shallow embedding of the Mode Orchestrator and Dual-Transport MIDI Dispatch
subsystem of the CYD MIDI Controller firmware (src/CYD-MIDI-Controller.ino),
together with theorems checking the specification's claims about it.

Code that lives in header files not present under src/ (ui_elements.h,
midi_utils.h, common_definitions.h, the per-mode headers) is modelled from the
specification; each such definition carries a doc comment starting with
`Modelled from the spec:`.
-/

namespace CYD

/-- The `AppMode` enumeration. Modelled from the spec: the enum itself is
declared in common_definitions.h, which is not under src/; the spec says it has
one `Menu` value plus one value per instrument mode, and the eleven constructor
names below are exactly the values used by src/CYD-MIDI-Controller.ino. -/
inductive AppMode where
  | MENU
  | KEYBOARD
  | SEQUENCER
  | BOUNCING_BALL
  | PHYSICS_DROP
  | RANDOM_GENERATOR
  | XY_PAD
  | ARPEGGIATOR
  | GRID_PIANO
  | AUTO_CHORD
  | LFO
  deriving DecidableEq, Repr, Fintype

/-- Registry entry, from `struct AppIcon` (src lines 67-72):
display name, glyph, packed RGB565 color, and the mode tag. -/
structure AppIcon where
  name : String
  symbol : String
  color : Nat
  mode : AppMode
  deriving DecidableEq, Repr

/-- `#define MAX_APPS 12` (src line 74). -/
def MAX_APPS : Nat := 12

/-- The `apps[]` registry array (src lines 75-86), in source order. -/
def apps : List AppIcon :=
  [ ⟨"KEYS", "♪", 0xF800, AppMode.KEYBOARD⟩,
    ⟨"BEATS", "♫", 0xFD00, AppMode.SEQUENCER⟩,
    ⟨"ZEN", "●", 0xFFE0, AppMode.BOUNCING_BALL⟩,
    ⟨"DROP", "⬇", 0x07E0, AppMode.PHYSICS_DROP⟩,
    ⟨"RNG", "※", 0x001F, AppMode.RANDOM_GENERATOR⟩,
    ⟨"XY PAD", "◈", 0x781F, AppMode.XY_PAD⟩,
    ⟨"ARP", "↗", 0xF81F, AppMode.ARPEGGIATOR⟩,
    ⟨"GRID", "▣", 0x07FF, AppMode.GRID_PIANO⟩,
    ⟨"CHORD", "⚘", 0xFBE0, AppMode.AUTO_CHORD⟩,
    ⟨"LFO", "", 0xAFE5, AppMode.LFO⟩ ]

/-- `int numApps = 10;` (src line 88). -/
def numApps : Nat := 10

/-- The global mutable state of the orchestrator that the claims are about:
`deviceConnected` (src line 43, initialized `false`) and `currentMode`
(src line 53, initialized `MENU`). -/
structure SysState where
  deviceConnected : Bool
  currentMode : AppMode
  deriving DecidableEq, Repr

/-- Initial global state: `deviceConnected = false` (line 43),
`currentMode = MENU` (line 53). -/
def initState : SysState := ⟨false, AppMode.MENU⟩

/-- A MIDI message as handed to `sendMIDI(cmd, note, velocity)`:
status byte, first data byte, second data byte. -/
structure MidiEvent where
  status : Nat
  data1 : Nat
  data2 : Nat
  deriving DecidableEq, Repr

/-- Modelled from the spec: `sendMIDI` lives in midi_utils.h, which is not
under src/. Per spec section 4.4 the Sink clamps each data byte to the 0-127
range and fans the message out to both transports; here the observable effect
is the event appended to the Sink trace. -/
def sendMIDI (cmd note velocity : Nat) (trace : List MidiEvent) : List MidiEvent :=
  trace ++ [⟨cmd, min note 127, min velocity 127⟩]

/-- The `for (int i = 0; i < 128; i++) sendMIDI(0x80, i, 0);` loop of
`MIDICallbacks::onDisconnect` (src lines 105-107), written with explicit fuel
`128 - i` so the recursion is structural. -/
def sweepAux : Nat → Nat → List MidiEvent → List MidiEvent
  | 0, _, trace => trace
  | fuel + 1, i, trace => sweepAux fuel (i + 1) (sendMIDI 0x80 i 0 trace)

/-- The full trace emitted by the all-notes-off loop of `onDisconnect`. -/
def noteOffSweep : List MidiEvent := sweepAux 128 0 []

/-- Result of one BLE connection callback: the new global state, whether the
menu was redrawn, and the MIDI events sent through the Sink. -/
structure CallbackResult where
  state : SysState
  redrew : Bool
  emitted : List MidiEvent
  deriving DecidableEq, Repr

/-- `MIDICallbacks::onConnect` (src lines 91-97): sets `deviceConnected = true`,
redraws the menu when `currentMode == MENU` (display-only), calls
`updateStatus()` (display-only), and sends no MIDI. -/
def onConnect (s : SysState) : CallbackResult :=
  { state := { s with deviceConnected := true },
    redrew := s.currentMode = AppMode.MENU,
    emitted := [] }

/-- `MIDICallbacks::onDisconnect` (src lines 98-108): sets
`deviceConnected = false`, redraws the menu when `currentMode == MENU`
(display-only), calls `updateStatus()` (display-only), then unconditionally
runs the all-notes-off loop `sendMIDI(0x80, i, 0)` for `i = 0..127`. -/
def onDisconnect (s : SysState) : CallbackResult :=
  { state := { s with deviceConnected := false },
    redrew := s.currentMode = AppMode.MENU,
    emitted := noteOffSweep }

set_option maxRecDepth 4000 in
/-- Closed form of the sweep trace: one NoteOff per note number, in increasing
order, all with status byte 0x80 and velocity 0. -/
lemma noteOffSweep_eq :
    noteOffSweep = (List.range 128).map (fun n => ⟨0x80, n, 0⟩) := by decide

/-- Claim C10: each all-notes-off sweep triggered by a disconnect event issues
exactly one NoteOff per note number, in increasing note-number order 0 through
127, each with status byte 0x80 (NoteOff on channel 0) and velocity 0, and the
connect event emits no MIDI events at all. -/
theorem disconnect_sweep_order_connect_silent (s : SysState) :
    (onDisconnect s).emitted = (List.range 128).map (fun n => ⟨0x80, n, 0⟩) ∧
    (onConnect s).emitted = [] :=
  ⟨noteOffSweep_eq, rfl⟩

set_option maxRecDepth 4000 in
/-- Claim C1 fails as stated: on a genuine connected-to-disconnected
transition (here from state `⟨true, MENU⟩`) the handler does NOT emit a
NoteOff for every note number on every MIDI channel — the sweep sends status
byte 0x80 only, so no NoteOff for channel 1 (status 0x81) is ever emitted. -/
theorem disconnect_sweep_not_all_channels :
    ¬ (∀ c, c < 16 → ∀ n, n < 128 →
        (⟨0x80 + c, n, 0⟩ : MidiEvent) ∈
          (onDisconnect ⟨true, AppMode.MENU⟩).emitted) := by
  intro h
  have h1 := h 1 (by decide) 0 (by decide)
  revert h1
  decide

set_option maxRecDepth 8000 in
/-- Claim C1 (amended): on every genuine transition from connected to
disconnected, the handler synchronously emits through the Sink exactly one
NoteOff (status byte 0x80, i.e. channel 0 only, velocity 0) for every one of
the 128 MIDI note numbers — 128 sends in total — regardless of which mode is
active. -/
theorem disconnect_sweep_all_notes (s : SysState)
    (h : s.deviceConnected = true) :
    (onDisconnect s).state.deviceConnected = false ∧
    (∀ n, n < 128 → ((onDisconnect s).emitted.count ⟨0x80, n, 0⟩) = 1) ∧
    (onDisconnect s).emitted.length = 128 := by
  refine ⟨rfl, ?_, ?_⟩
  · show ∀ n, n < 128 → (noteOffSweep.count ⟨0x80, n, 0⟩) = 1
    decide
  · show noteOffSweep.length = 128
    decide

/-- Witness for `disconnect_sweep_all_notes` at the concrete connected state
whose active mode is KEYBOARD (not the menu). -/
theorem disconnect_sweep_all_notes_witness :
    (⟨true, AppMode.KEYBOARD⟩ : SysState).deviceConnected = true ∧
    ((onDisconnect ⟨true, AppMode.KEYBOARD⟩).state.deviceConnected = false ∧
     (∀ n, n < 128 →
        ((onDisconnect ⟨true, AppMode.KEYBOARD⟩).emitted.count ⟨0x80, n, 0⟩) = 1) ∧
     (onDisconnect ⟨true, AppMode.KEYBOARD⟩).emitted.length = 128) :=
  ⟨rfl, disconnect_sweep_all_notes ⟨true, AppMode.KEYBOARD⟩ rfl⟩

set_option maxRecDepth 4000 in
/-- Claim C2 fails as stated: delivering a duplicate `onDisconnect` while
already disconnected (state `⟨false, MENU⟩`) DOES re-trigger the all-notes-off
sweep — the handler's sweep loop is unconditional, so all 128 NoteOffs are
emitted again. -/
theorem duplicate_disconnect_resweeps :
    (onDisconnect ⟨false, AppMode.MENU⟩).emitted ≠ [] ∧
    (onDisconnect ⟨false, AppMode.MENU⟩).emitted.length = 128 := by
  constructor
  · decide
  · decide

set_option maxRecDepth 4000 in
/-- Claim C2 (amended): duplicate connection events leave `ConnectionState`
(and the whole global state) unchanged — both callbacks are idempotent on
state — and a duplicate `onConnect` emits no MIDI; however the all-notes-off
sweep runs on EVERY `onDisconnect` delivery, duplicate or genuine, not only on
a genuine connected-to-disconnected transition. -/
theorem connection_callbacks_idempotent_state (s : SysState) :
    ((onConnect s).state.deviceConnected = true ∧
     (onConnect (onConnect s).state).state = (onConnect s).state) ∧
    ((onDisconnect s).state.deviceConnected = false ∧
     (onDisconnect (onDisconnect s).state).state = (onDisconnect s).state) ∧
    (onConnect s).emitted = [] ∧
    (onDisconnect s).emitted.length = 128 := by
  refine ⟨⟨rfl, rfl⟩, ⟨rfl, rfl⟩, rfl, ?_⟩
  show noteOffSweep.length = 128
  decide

/-! ## Menu geometry: drawing, hit-testing -/

/-- An axis-aligned rectangle in display coordinates. -/
structure Rect where
  x : Int
  y : Int
  w : Int
  h : Int
  deriving DecidableEq, Repr

/-- The cell rectangle painted for icon `i` by `drawMenu` (src lines 237-243
for the layout constants and 256-266 for the per-index formula):
`iconSize = 40`, `spacing = 8`, `cols = 5`,
`startX = (320 - (cols*iconSize + (cols-1)*spacing)) / 2`, `startY = 65`,
`col = i % cols`, `row = i / cols`,
`x = startX + col*(iconSize+spacing)`, `y = startY + row*(iconSize+spacing+15)`,
and the icon background is the `iconSize × iconSize` square at `(x, y)`. -/
def drawCellRect (i : Nat) : Rect :=
  let iconSize : Int := 40
  let spacing : Int := 8
  let cols : Int := 5
  let startX : Int := (320 - (cols * iconSize + (cols - 1) * spacing)) / 2
  let startY : Int := 65
  let col : Int := (i : Int) % cols
  let row : Int := (i : Int) / cols
  { x := startX + col * (iconSize + spacing),
    y := startY + row * (iconSize + spacing + 15),
    w := iconSize, h := iconSize }

/-- The cell rectangle tested for icon `i` by `handleMenuTouch`
(src lines 409-421): the same layout constants and per-index formula as
`drawMenu`, with the `iconSize × iconSize` square passed to
`isButtonPressed(x, y, iconSize, iconSize)`. -/
def touchCellRect (i : Nat) : Rect :=
  let iconSize : Int := 40
  let spacing : Int := 8
  let cols : Int := 5
  let startX : Int := (320 - (cols * iconSize + (cols - 1) * spacing)) / 2
  let startY : Int := 65
  let col : Int := (i : Int) % cols
  let row : Int := (i : Int) / cols
  { x := startX + col * (iconSize + spacing),
    y := startY + row * (iconSize + spacing + 15),
    w := iconSize, h := iconSize }

/-- Modelled from the spec: `isButtonPressed` lives in ui_elements.h, which is
not under src/. Per spec section 4.2 the hit-tester selects the entry whose
cell rectangle contains the touch point; containment is taken closed on both
axes. The `justPressed` gate is applied by the control loop (src line 185)
before `handleMenuTouch` runs, so only the geometric test is modelled here. -/
def containsPoint (r : Rect) (px py : Int) : Bool :=
  decide (r.x ≤ px) && decide (px ≤ r.x + r.w) &&
  decide (r.y ≤ py) && decide (py ≤ r.y + r.h)

/-- Two rectangles are separated when they are strictly apart on some axis. -/
def rectDisjoint (a b : Rect) : Bool :=
  decide (a.x + a.w < b.x) || decide (b.x + b.w < a.x) ||
  decide (a.y + a.h < b.y) || decide (b.y + b.h < a.y)

/-- Separated rectangles share no point: `rectDisjoint` really is
non-overlapping for the closed containment test. -/
lemma rectDisjoint_no_common_point (a b : Rect)
    (hd : rectDisjoint a b = true) (px py : Int) :
    ¬(containsPoint a px py = true ∧ containsPoint b px py = true) := by
  simp only [rectDisjoint, containsPoint, Bool.or_eq_true, Bool.and_eq_true,
    decide_eq_true_eq] at *
  omega

/-- The first-match scan of `handleMenuTouch` (src lines 415-425) with the
loop bound generalized from `numApps` to an arbitrary registry size `n`:
indices are tried in increasing order and the first whose cell rectangle
contains the touch point wins. -/
def hitTestIdx (n : Nat) (px py : Int) : Option Nat :=
  (List.range n).find? (fun i => containsPoint (touchCellRect i) px py)

/-- Fallback icon for total indexing (never reached on in-range indices). -/
def defaultIcon : AppIcon := ⟨"", "", 0, AppMode.MENU⟩

/-- Hit-testing against a registry: resolve the touch point to an index with
the first-match scan, then return the mode stored at that registry index. -/
def hitTestMode (registry : List AppIcon) (px py : Int) : Option AppMode :=
  (hitTestIdx registry.length px py).map (fun i => (registry.getD i defaultIcon).mode)

/-- Horizontal center of cell `i`. -/
def cellCenterX (i : Nat) : Int := (touchCellRect i).x + (touchCellRect i).w / 2

/-- Vertical center of cell `i`. -/
def cellCenterY (i : Nat) : Int := (touchCellRect i).y + (touchCellRect i).h / 2

/-- Finite geometric core of claim C3, checked by evaluation: for every size
up to `MAX_APPS`, distinct cells are separated rectangles. -/
lemma cells_separated_core :
    ∀ n, n < 13 → ∀ i, i < n → ∀ j, j < n → i ≠ j →
      rectDisjoint (touchCellRect i) (touchCellRect j) = true := by decide

/-- Finite hit-testing core of claim C3, checked by evaluation: for every size
up to `MAX_APPS`, the first-match scan at the center of cell `i` yields `i`. -/
lemma center_hit_core :
    ∀ n, n < 13 → ∀ i, i < n →
      hitTestIdx n (cellCenterX i) (cellCenterY i) = some i := by decide

/-- Claim C3: for every registry size from 1 to `MAX_APPS` (12) and every
index `i` below that size, cell `i` overlaps no other cell (they share no
common point under the containment test), and hit-testing the exact center of
cell `i` resolves to the mode stored at registry index `i`. -/
theorem menu_grid_geometry (registry : List AppIcon)
    (h1 : 1 ≤ registry.length) (h2 : registry.length ≤ MAX_APPS)
    (i : Nat) (hi : i < registry.length) :
    (∀ j, j < registry.length → j ≠ i → ∀ px py,
        ¬(containsPoint (touchCellRect i) px py = true ∧
          containsPoint (touchCellRect j) px py = true)) ∧
    hitTestMode registry (cellCenterX i) (cellCenterY i) =
      some ((registry.getD i defaultIcon).mode) := by
  have hlt : registry.length < 13 := by
    have : MAX_APPS = 12 := rfl
    omega
  constructor
  · intro j hj hne px py
    exact rectDisjoint_no_common_point _ _
      (cells_separated_core registry.length hlt i hi j hj (fun h => hne h.symm)) px py
  · unfold hitTestMode
    rw [center_hit_core registry.length hlt i hi]
    rfl

/-- Witness for `menu_grid_geometry` at the concrete registry `apps`
(10 entries) and index 7 (row 1, column 2). -/
theorem menu_grid_geometry_witness :
    1 ≤ apps.length ∧ apps.length ≤ MAX_APPS ∧ 7 < apps.length ∧
    ((∀ j, j < apps.length → j ≠ 7 → ∀ px py,
        ¬(containsPoint (touchCellRect 7) px py = true ∧
          containsPoint (touchCellRect j) px py = true)) ∧
     hitTestMode apps (cellCenterX 7) (cellCenterY 7) =
       some ((apps.getD 7 defaultIcon).mode)) :=
  ⟨by decide, by decide, by decide,
   menu_grid_geometry apps (by decide) (by decide) 7 (by decide)⟩

/-- Claim C4: the cell-rectangle formula used by `drawMenu` and the one used
by `handleMenuTouch` are the same function of the index — for every index the
painted rectangle equals the tested rectangle (in particular for every index
below `numApps`). -/
theorem draw_and_touch_cells_agree (i : Nat) :
    drawCellRect i = touchCellRect i := rfl

/-! ## Orchestrator: mode entry, exit, per-tick dispatch -/

/-- `enterMode` (src lines 428-463): sets `currentMode = mode`, then calls the
mode's draw routine and `updateStatus()` — both display-only, so only the
state update is observable here. -/
def enterMode (mode : AppMode) (s : SysState) : SysState :=
  { s with currentMode := mode }

/-- `exitToMenu` (src lines 465-470): sets `currentMode = MENU`, calls
`stopAllModes()` (mode-internal teardown, in the mode headers not under src/),
redraws the menu and calls `updateStatus()` (display-only). -/
def exitToMenu (s : SysState) : SysState :=
  { s with currentMode := AppMode.MENU }

/-- `handleMenuTouch` (src lines 408-426): scan the registry in index order;
on the first index whose cell rectangle contains the touch point, call
`enterMode(apps[i].mode)` and return; if no cell matches, fall through with no
state change. -/
def handleMenuTouch (px py : Int) (s : SysState) : SysState :=
  match hitTestIdx numApps px py with
  | some i => enterMode ((apps.getD i defaultIcon).mode) s
  | none => s

/-- A first-match scan returns `none` when no index below `n` matches. -/
lemma find?_range_eq_none_of_all {p : Nat → Bool} {n : Nat}
    (h : ∀ i, i < n → p i = false) : (List.range n).find? p = none := by
  apply List.find?_eq_none.mpr
  intro x hx
  simp only [List.mem_range] at hx
  simp [h x hx]

/-- A first-match scan returns the least matching index. -/
lemma find?_range_eq_some_of_first {p : Nat → Bool} {n j : Nat}
    (hj : j < n) (hp : p j = true) (hmin : ∀ k, k < j → p k = false) :
    (List.range n).find? p = some j := by
  induction n with
  | zero => omega
  | succ n ih =>
    rcases Nat.lt_or_ge j n with h | h
    · rw [List.range_succ, List.find?_append, ih h]
      rfl
    · have hjn : j = n := by omega
      subst hjn
      rw [List.range_succ, List.find?_append, find?_range_eq_none_of_all hmin]
      simp [List.find?, hp]

/-- Claim C5: menu hit-testing scans the registry in index order and enters
the mode of the first (lowest-index) entry whose cell rectangle contains the
touch point; when no cell contains the point, no mode is entered and the state
is left untouched (in particular the orchestrator stays in `MENU`). -/
theorem menu_touch_first_match (px py : Int) (s : SysState) :
    (∀ j, j < numApps →
        containsPoint (touchCellRect j) px py = true →
        (∀ k, k < j → containsPoint (touchCellRect k) px py = false) →
        handleMenuTouch px py s =
          { s with currentMode := (apps.getD j defaultIcon).mode }) ∧
    ((∀ i, i < numApps → containsPoint (touchCellRect i) px py = false) →
      handleMenuTouch px py s = s) := by
  constructor
  · intro j hj hp hmin
    unfold handleMenuTouch hitTestIdx
    rw [find?_range_eq_some_of_first hj hp hmin]
    rfl
  · intro hnone
    unfold handleMenuTouch hitTestIdx
    rw [find?_range_eq_none_of_all hnone]

/-- Witness for `menu_touch_first_match`: the point (64, 85) is the center of
cell 0 and selects the KEYS entry; the point (0, 0) misses every cell and
leaves the state untouched. -/
theorem menu_touch_first_match_witness :
    (handleMenuTouch 64 85 ⟨false, AppMode.MENU⟩ =
      { deviceConnected := false,
        currentMode := (apps.getD 0 defaultIcon).mode }) ∧
    handleMenuTouch 0 0 ⟨false, AppMode.MENU⟩ = ⟨false, AppMode.MENU⟩ :=
  ⟨(menu_touch_first_match 64 85 ⟨false, AppMode.MENU⟩).1 0 (by decide)
      (by decide) (fun k hk => absurd hk (Nat.not_lt_zero k)),
   (menu_touch_first_match 0 0 ⟨false, AppMode.MENU⟩).2 (by decide)⟩

/-- Claim C6: a round trip Menu → M → Menu — `enterMode M` followed by the
return-to-menu path `exitToMenu` — restores the orchestrator's global state
exactly; no mode-specific data survives into the Menu state. -/
theorem mode_round_trip (m : AppMode) (s : SysState)
    (h : s.currentMode = AppMode.MENU) :
    exitToMenu (enterMode m s) = s := by
  cases s
  simp only [enterMode, exitToMenu]
  simp_all

/-- Witness for `mode_round_trip` at mode KEYBOARD from the connected menu
state. -/
theorem mode_round_trip_witness :
    (⟨true, AppMode.MENU⟩ : SysState).currentMode = AppMode.MENU ∧
    exitToMenu (enterMode AppMode.KEYBOARD ⟨true, AppMode.MENU⟩) =
      (⟨true, AppMode.MENU⟩ : SysState) :=
  ⟨rfl, mode_round_trip AppMode.KEYBOARD ⟨true, AppMode.MENU⟩ rfl⟩

/-- The touch state sampled once per tick by `updateTouch`. Modelled from the
spec: the `TouchState` struct is declared in a header not under src/; per spec
section 3 it carries display-space coordinates, `pressed`, and the
rising-edge `justPressed` flag. -/
structure TouchState where
  x : Int
  y : Int
  pressed : Bool
  justPressed : Bool
  deriving DecidableEq, Repr

/-- What the control loop dispatched on one tick: nothing, the menu
hit-tester, or a mode's per-tick update function (with the full touch
state). -/
inductive Dispatch where
  | idle
  | menuHit (t : TouchState)
  | modeUpdate (m : AppMode) (t : TouchState)
  deriving DecidableEq, Repr

/-- One iteration of `loop()` (src lines 180-220) after `updateTouch()`:
in `MENU`, `handleMenuTouch` runs exactly when `touch.justPressed`; in any
other mode, that mode's handler runs unconditionally. The mode handler bodies
are in the mode headers, which are not under src/. Modelled from the spec: a
mode's per-tick update may emit MIDI through the Sink and may trigger the
mode-internal return-to-menu (`exitToMenu`); it changes no other orchestrator
state. The decision to return is abstracted as the predicate `exitReq`. -/
def loopTick (exitReq : AppMode → TouchState → Bool) (t : TouchState)
    (s : SysState) : SysState × Dispatch :=
  match s.currentMode with
  | AppMode.MENU =>
      if t.justPressed then (handleMenuTouch t.x t.y s, Dispatch.menuHit t)
      else (s, Dispatch.idle)
  | m => (if exitReq m t then exitToMenu s else s, Dispatch.modeUpdate m t)

/-- Claim C7: the orchestrator starts in `MENU`, and from any state whose
current mode is not `MENU` a tick either keeps the current mode or returns to
`MENU` — no direct transition from one non-Menu mode to a different non-Menu
mode ever occurs, so every mode change passes through the menu. -/
theorem mode_changes_pass_through_menu :
    initState.currentMode = AppMode.MENU ∧
    ∀ (exitReq : AppMode → TouchState → Bool) (t : TouchState) (s : SysState),
      s.currentMode ≠ AppMode.MENU →
      ((loopTick exitReq t s).1.currentMode = s.currentMode ∨
       (loopTick exitReq t s).1.currentMode = AppMode.MENU) := by
  refine ⟨rfl, ?_⟩
  intro exitReq t s hs
  unfold loopTick
  cases hm : s.currentMode <;> simp_all [exitToMenu]
  all_goals
    rcases exitReq _ t with _ | _ <;> simp [hm]

/-- Witness for `mode_changes_pass_through_menu`: a tick in KEYBOARD mode with
an exit request that always fires. -/
theorem mode_changes_pass_through_menu_witness :
    (⟨true, AppMode.KEYBOARD⟩ : SysState).currentMode ≠ AppMode.MENU ∧
    ((loopTick (fun _ _ => true) ⟨0, 0, false, false⟩
        ⟨true, AppMode.KEYBOARD⟩).1.currentMode =
      (⟨true, AppMode.KEYBOARD⟩ : SysState).currentMode ∨
     (loopTick (fun _ _ => true) ⟨0, 0, false, false⟩
        ⟨true, AppMode.KEYBOARD⟩).1.currentMode = AppMode.MENU) :=
  ⟨by decide,
   mode_changes_pass_through_menu.2 (fun _ _ => true) ⟨0, 0, false, false⟩
     ⟨true, AppMode.KEYBOARD⟩ (by decide)⟩

/-- Claim C8: per-tick dispatch — in the `MENU` state the hit-tester is
invoked exactly when `justPressed` is true on that tick, and in any mode state
that mode's per-tick update function is invoked unconditionally with the full
touch state. -/
theorem per_tick_dispatch (exitReq : AppMode → TouchState → Bool)
    (t : TouchState) (s : SysState) :
    (s.currentMode = AppMode.MENU →
      ((loopTick exitReq t s).2 = Dispatch.menuHit t ↔ t.justPressed = true)) ∧
    (s.currentMode ≠ AppMode.MENU →
      (loopTick exitReq t s).2 = Dispatch.modeUpdate s.currentMode t) := by
  constructor
  · intro hs
    unfold loopTick
    rw [hs]
    rcases ht : t.justPressed with _ | _ <;> simp
  · intro hs
    unfold loopTick
    cases hm : s.currentMode <;> simp_all

/-- Witness for `per_tick_dispatch`: a menu tick with a fresh press dispatches
to the hit-tester; a KEYBOARD tick dispatches to the mode update with the full
touch state. -/
theorem per_tick_dispatch_witness :
    ((⟨false, AppMode.MENU⟩ : SysState).currentMode = AppMode.MENU ∧
     ((loopTick (fun _ _ => false) ⟨64, 85, true, true⟩
          ⟨false, AppMode.MENU⟩).2 = Dispatch.menuHit ⟨64, 85, true, true⟩ ↔
       (⟨64, 85, true, true⟩ : TouchState).justPressed = true)) ∧
    ((⟨false, AppMode.KEYBOARD⟩ : SysState).currentMode ≠ AppMode.MENU ∧
     (loopTick (fun _ _ => false) ⟨64, 85, true, true⟩
        ⟨false, AppMode.KEYBOARD⟩).2 =
       Dispatch.modeUpdate
         (⟨false, AppMode.KEYBOARD⟩ : SysState).currentMode
         ⟨64, 85, true, true⟩) :=
  ⟨⟨rfl, (per_tick_dispatch (fun _ _ => false) ⟨64, 85, true, true⟩
      ⟨false, AppMode.MENU⟩).1 rfl⟩,
   ⟨by decide, (per_tick_dispatch (fun _ _ => false) ⟨64, 85, true, true⟩
      ⟨false, AppMode.KEYBOARD⟩).2 (by decide)⟩⟩

/-- Claim C9: the registry holds at most `MAX_APPS` (12) entries, and every
`AppMode` value except `MENU` is the mode of exactly one registry entry — none
missing, none duplicated. (The registry is a constant: it is built once and
nothing in the program writes to it.) -/
theorem registry_invariant :
    apps.length ≤ MAX_APPS ∧
    ∀ m : AppMode, m ≠ AppMode.MENU → (apps.map AppIcon.mode).count m = 1 := by
  constructor
  · decide
  · decide

/-- Witness for `registry_invariant` at the KEYBOARD mode. -/
theorem registry_invariant_witness :
    apps.length ≤ MAX_APPS ∧
    (AppMode.KEYBOARD ≠ AppMode.MENU ∧
     (apps.map AppIcon.mode).count AppMode.KEYBOARD = 1) :=
  ⟨registry_invariant.1,
   by decide,
   registry_invariant.2 AppMode.KEYBOARD (by decide)⟩

end CYD
